import Mathlib

/-!
Verification development for the product-eye repository.

This file gives a shallow embedding, in Lean 4, of the parts of the
repository that the specification talks about:

* the structured output types in
  `src/product_critiquer/output_types/navigation_verification_output.py`
  and `src/product_critiquer/output_types/persona_navigation_output.py`
  (pydantic models, embedded as plain structures; the pydantic models
  declare no cross-field validators, so every well-typed value is
  constructible, exactly as here);
* the navigation / verification retry loop of
  `ProductCritiquer.kickoff_with_verification` in
  `src/product_critiquer/crew.py` (lines 137-251), embedded as a
  fuel-indexed state-passing function — the fuel is an upper bound that
  is never exhausted before the loop guard fails;
* `ProductCritiquer.cleanup` (crew.py lines 42-51) and the
  `try/finally` of `run` in `src/product_critiquer/main.py`;
* `InputLoader.validate_config`, `InputLoader.load_and_validate` and
  `InputLoader.auto_detect_and_load` in
  `src/product_critiquer/config/inputs.py`, together with an embedding
  of Python values (`PyValue`), Python truthiness, and the relevant part
  of `pathlib.PurePath.suffix`.

External effects (LLM crew kickoffs, the browser tool, the filesystem)
are modelled as oracles passed in as parameters: a function
`Nat → Option NavigationVerificationOutput` supplies, for each loop
iteration, the parsed pydantic verification output when one is
available (`none` covers every case in which the Python code's check
`verification_result and hasattr(verification_result, "pydantic") and
verification_result.pydantic` fails), and a function
`String → FileReadOutcome` supplies the result of reading and
YAML-parsing a file.
-/

namespace ProductEye

/-- Embedding of the Python values that the configuration code
manipulates: strings, ints, bools, lists, dicts (as association lists
with string keys, matching `Dict[str, Any]`) and `None`.  Floats are
not modelled; no claim needs them. -/
inductive PyValue where
  | str (s : String)
  | int (n : Int)
  | bool (b : Bool)
  | list (xs : List PyValue)
  | dict (kvs : List (String × PyValue))
  | none
deriving Inhabited

/-- Python truthiness (`bool(v)`) for the embedded values: empty
strings, zero, `False`, empty containers and `None` are falsy. -/
def truthy : PyValue → Bool
  | .str s => !(s == "")
  | .int n => !(n == 0)
  | .bool b => b
  | .list xs => !xs.isEmpty
  | .dict kvs => !kvs.isEmpty
  | .none => false

/-- Embedding of `isinstance(v, str)`. -/
def isStr : PyValue → Bool
  | .str _ => true
  | _ => false

/-- Embedding of the `VerificationDecision` enum of
`navigation_verification_output.py` (lines 6-10). -/
inductive VerificationDecision where
  | PROCEED
  | RETRY
  | ACCEPTABLE_WITH_MAX_ATTEMPTS
deriving DecidableEq, Inhabited

/-- The `.value` of the `VerificationDecision` string enum, as read by
`crew.py` line 196 (`verification_output.final_decision.value`). -/
def VerificationDecision.value : VerificationDecision → String
  | .PROCEED => "PROCEED"
  | .RETRY => "RETRY"
  | .ACCEPTABLE_WITH_MAX_ATTEMPTS => "ACCEPTABLE_WITH_MAX_ATTEMPTS"

/-- Embedding of the `Literal["satisfactory", "needs_improvement",
"acceptable_with_max_attempts"]` type of `overall_assessment`
(navigation_verification_output.py line 31). -/
inductive OverallAssessment where
  | satisfactory
  | needs_improvement
  | acceptable_with_max_attempts
deriving DecidableEq, Inhabited

/-- Embedding of the pydantic model `TaskVerificationResult`
(navigation_verification_output.py lines 13-23).  The model declares
only typed fields and no validators, so every well-typed value is
constructible. -/
structure TaskVerificationResult where
  task_description : String
  priority : String
  max_attempts : Int
  attempts_made : Int
  completion_status : String
  success_criteria_met : Bool
  verification_notes : String
  needs_retry : Bool
  can_retry : Bool
deriving Inhabited

/-- Embedding of the pydantic model `NavigationVerificationOutput`
(navigation_verification_output.py lines 26-65).  `completion_rate` is
a Python float, carried here as `Float`; `priority_tasks_completed` is
a `Dict[str, int]`.  The model declares only typed fields (some with
defaults) and no validators. -/
structure NavigationVerificationOutput where
  persona_type : String
  url_tested : String
  overall_assessment : OverallAssessment
  task_verifications : List TaskVerificationResult
  completion_rate : Float
  priority_tasks_completed : List (String × Int) := []
  feedback_summary : List String := []
  missing_requirements : List String := []
  final_decision : VerificationDecision
  retry_guidance : String := ""
  verification_notes : String := ""

/-- Embedding of the pydantic model `TestingInstructionResult`
(persona_navigation_output.py lines 5-27).  Only typed fields with a
default for `fallback_executed`; no validators. -/
structure TestingInstructionResult where
  task_description : String
  priority : String
  max_attempts : Int
  attempts_made : Int
  success_criteria : String
  success_criteria_met : Bool
  fallback_action : String
  fallback_executed : Bool := false
  completion_notes : String
  final_status : String
deriving Inhabited

/-! ### The navigation / verification retry loop (crew.py 137-251) -/

/-- `max_navigation_retries = 3` (crew.py line 139), the global retry
limit for the navigation task. -/
def max_navigation_retries : Nat := 3

/-- The decision string computed by crew.py lines 188-201: when a
parseable pydantic verification output is available it is
`final_decision.value`, otherwise the fallback string `"PROCEED"`.
`none` stands for every case in which
`verification_result and hasattr(verification_result, "pydantic") and
verification_result.pydantic` is falsy. -/
def decisionOf : Option NavigationVerificationOutput → String
  | some out => out.final_decision.value
  | none => "PROCEED"

/-- The observable state of `kickoff_with_verification`'s navigation
loop when it exits: the counter and flag of crew.py lines 140/154, the
last verification result, the list of `inputs` dictionaries passed to
each navigation crew kickoff (crew.py line 174, one entry per
iteration, in order), and the retry-guidance strings printed at
crew.py line 225 (in order). -/
structure LoopResult where
  navigation_retry_count : Nat
  navigation_approved : Bool
  verification_result : Option NavigationVerificationOutput
  attempts_inputs : List (List (String × PyValue))
  printed_guidance : List String
deriving Inhabited

/-- One-for-one embedding of the `while` loop of crew.py lines
158-231.  `verdicts i` is the parsed verification output of the
iteration in which `navigation_retry_count` goes from `i` to `i + 1`
(the external LLM call of lines 178-185, as an oracle).  The guard
`approved = true ∨ max_navigation_retries ≤ count` is the negation of
`not navigation_approved and navigation_retry_count <
max_navigation_retries`; the four branches are the
`PROCEED` / `ACCEPTABLE_WITH_MAX_ATTEMPTS` / `RETRY`-below-limit /
else chain of lines 205-231.  The fuel argument only forces
termination; `runLoop` supplies fuel `max_navigation_retries`, which
the invariant proofs below show is never exhausted before the guard
fails. -/
def loopGo (verdicts : Nat → Option NavigationVerificationOutput)
    (inputs : List (String × PyValue)) :
    Nat → Nat → Bool → Option NavigationVerificationOutput →
    List (List (String × PyValue)) → List String → LoopResult
  | 0, count, approved, vr, atts, prn => ⟨count, approved, vr, atts, prn⟩
  | fuel + 1, count, approved, vr, atts, prn =>
    if approved = true ∨ max_navigation_retries ≤ count then
      ⟨count, approved, vr, atts, prn⟩
    else
      let count' := count + 1
      let atts' := atts ++ [inputs]
      let vr' := verdicts count
      let decision := decisionOf vr'
      if decision = "PROCEED" then
        loopGo verdicts inputs fuel count' true vr' atts' prn
      else if decision = "ACCEPTABLE_WITH_MAX_ATTEMPTS" then
        loopGo verdicts inputs fuel count' true vr' atts' prn
      else if decision = "RETRY" ∧ count' < max_navigation_retries then
        let prn' := match vr' with
          | some out => prn ++ [out.retry_guidance]
          | Option.none => prn
        loopGo verdicts inputs fuel count' false vr' atts' prn'
      else
        loopGo verdicts inputs fuel count' true vr' atts' prn

/-- The navigation loop as entered by `kickoff_with_verification`:
`navigation_retry_count = 0`, `navigation_approved = False`,
`navigation_result = None`, `verification_result = None`
(crew.py lines 140, 154-156). -/
def runLoop (verdicts : Nat → Option NavigationVerificationOutput)
    (inputs : List (String × PyValue)) : LoopResult :=
  loopGo verdicts inputs max_navigation_retries 0 false Option.none [] []

/-- Is the first list a prefix of the second (on characters)? -/
def isPrefixChars : List Char → List Char → Bool
  | [], _ => true
  | _ :: _, [] => false
  | a :: as, b :: bs => a == b && isPrefixChars as bs

/-- Does `cs` contain `g` as a contiguous sublist? -/
def containsSub (g : List Char) : List Char → Bool
  | [] => isPrefixChars g []
  | c :: cs => isPrefixChars g (c :: cs) || containsSub g cs

/-- Does the string `s` contain `g` as a substring?  (Used to ask
whether an inputs dictionary "includes" a piece of retry guidance.) -/
def strMentions (s g : String) : Bool :=
  containsSub g.data s.data

/-- Does any string value of the inputs dictionary mention `g`? -/
def inputsMention (inputs : List (String × PyValue)) (g : String) : Bool :=
  inputs.any (fun kv =>
    match kv.2 with
    | .str s => strMentions s g
    | _ => false)

/-! ### InputLoader.validate_config (config/inputs.py 65-88) -/

/-- `required_fields = ['app_url', 'persona_type']` (inputs.py line 68). -/
def requiredFields : List String := ["app_url", "persona_type"]

/-- `required_instruction_fields` (inputs.py line 85). -/
def requiredInstructionFields : List String :=
  ["task", "priority", "max_attempts", "success_criteria", "fallback_action"]

/-- The body of the `for field in required_fields` loop of inputs.py
lines 70-74 for one field: a missing key raises, then a falsy or
non-string value raises. -/
def checkTopField (config : List (String × PyValue)) (f : String) :
    Except String Unit :=
  match config.lookup f with
  | Option.none =>
    Except.error ("Missing required field '" ++ f ++ "' in configuration")
  | some v =>
    if truthy v = false ∨ isStr v = false then
      Except.error ("Field '" ++ f ++ "' must be a non-empty string")
    else
      Except.ok ()

/-- The `for field in required_fields` loop of inputs.py lines 70-74:
the first failing field raises. -/
def checkTopFields (config : List (String × PyValue)) :
    List String → Except String Unit
  | [] => Except.ok ()
  | f :: rest =>
    match checkTopField config f with
    | Except.error e => Except.error e
    | Except.ok _ => checkTopFields config rest

/-- The `for field in required_instruction_fields` loop of inputs.py
lines 86-88 over one instruction dictionary (index `i` is only used in
the error message). -/
def checkInstructionFields (i : Nat) (instr : List (String × PyValue)) :
    List String → Except String Unit
  | [] => Except.ok ()
  | f :: rest =>
    if (instr.lookup f).isNone then
      Except.error ("Missing required field '" ++ f ++
        "' in testing instruction " ++ toString i)
    else
      checkInstructionFields i instr rest

/-- The `for i, instruction in enumerate(...)` loop of inputs.py lines
81-88: each entry must be a dictionary and contain every required
instruction field. -/
def checkInstructions : Nat → List PyValue → Except String Unit
  | _, [] => Except.ok ()
  | i, instr :: rest =>
    match instr with
    | .dict kvs =>
      match checkInstructionFields i kvs requiredInstructionFields with
      | Except.error e => Except.error e
      | Except.ok _ => checkInstructions (i + 1) rest
    | _ =>
      Except.error ("Testing instruction " ++ toString i ++
        " must be a dictionary")

/-- Embedding of `InputLoader.validate_config` (inputs.py lines
65-88).  Raised `ValueError`s are the `Except.error` branch. -/
def validate_config (config : List (String × PyValue)) :
    Except String Unit :=
  match checkTopFields config requiredFields with
  | Except.error e => Except.error e
  | Except.ok _ =>
    match config.lookup "testing_instructions" with
    | Option.none => Except.ok ()
    | some v =>
      match v with
      | .list xs => checkInstructions 0 xs
      | _ => Except.error "Field 'testing_instructions' must be a list"

/-- Characterisation (proved below) of the configurations
`validate_config` accepts: `app_url` and `persona_type` present as
truthy strings, and `testing_instructions`, when present, a list of
dictionaries each containing the five required keys — with no
constraint on the keys' values. -/
def topFieldOk (config : List (String × PyValue)) (f : String) : Bool :=
  match config.lookup f with
  | some v => truthy v && isStr v
  | Option.none => false

/-- One `testing_instructions` entry as `validate_config` accepts it:
a dictionary containing every required instruction key. -/
def instrEntryOk : PyValue → Bool
  | .dict kvs => requiredInstructionFields.all (fun f => (kvs.lookup f).isSome)
  | _ => false

/-- The full acceptance predicate of `validate_config` (proved
equivalent below). -/
def configAccepted (config : List (String × PyValue)) : Bool :=
  requiredFields.all (topFieldOk config) &&
    (match config.lookup "testing_instructions" with
     | Option.none => true
     | some (.list xs) => xs.all instrEntryOk
     | some _ => false)

/-- Rendering of the SPEC'S words (not of the code) for comparison
with `validate_config`: one testing instruction is valid when it is a
dictionary with the five required keys and its `max_attempts` is a
positive integer ("`max_attempts` (positive integer, per-task retry
budget)"). -/
def spec_instrEntryOk : PyValue → Bool
  | .dict kvs =>
    requiredInstructionFields.all (fun f => (kvs.lookup f).isSome) &&
      (match kvs.lookup "max_attempts" with
       | some (.int n) => decide (0 < n)
       | _ => false)
  | _ => false

/-- Rendering of the SPEC'S words for the whole configuration: the
required string fields plus, for each testing instruction, the five
keys with `max_attempts` a positive integer. -/
def spec_configOk (config : List (String × PyValue)) : Bool :=
  requiredFields.all (topFieldOk config) &&
    (match config.lookup "testing_instructions" with
     | Option.none => true
     | some (.list xs) => xs.all spec_instrEntryOk
     | some _ => false)

/-! ### InputLoader.load_and_validate and auto_detect_and_load
(config/inputs.py 48-63, 90-115) -/

/-- Split a character list on a separator character (like
`str.split(sep)`). -/
def splitChar (sep : Char) : List Char → List (List Char)
  | [] => [[]]
  | c :: cs =>
    let r := splitChar sep cs
    if c == sep then [] :: r
    else
      match r with
      | [] => [[c]]
      | g :: gs => (c :: g) :: gs

/-- The final path component, `pathlib.PurePath.name`: the last
non-empty `/`-separated component (POSIX paths). -/
def pathName (p : String) : String :=
  String.mk (((splitChar '/' p.data).filter (fun g => !g.isEmpty)).getLastD [])

/-- Embedding of `pathlib.PurePath.suffix`: with `i = name.rfind('.')`
the index of the last dot of the final component, the suffix is
`name[i:]` when `0 < i < len(name) - 1`, and `""` otherwise (this is
the CPython implementation, so `"a."`, `".bashrc"` and dotless names
have no suffix). -/
def pathSuffix (p : String) : String :=
  let name := (pathName p).data
  match (List.reverse name).findIdx? (fun c => c == '.') with
  | Option.none => ""
  | some j =>
    let i := name.length - 1 - j
    if 0 < i ∧ i < name.length - 1 then String.mk (name.drop i) else ""

/-- Embedding of `str.lower()` for ASCII strings (every extension the
code compares against is ASCII). -/
def charLower (c : Char) : Char :=
  if 'A' ≤ c ∧ c ≤ 'Z' then Char.ofNat (c.toNat + 32) else c

/-- Lower-case a string character by character. -/
def strLower (s : String) : String :=
  String.mk (s.data.map charLower)

/-- Outcome of opening and YAML-parsing a file (the filesystem oracle
for `load_from_yaml`): a parsed mapping, a `None` document,
a `yaml.YAMLError`, a `FileNotFoundError`, or any other exception.
(Documents that parse to something other than a mapping or `None` are
not modelled; no claim needs them.) -/
inductive FileReadOutcome where
  | mapping (kvs : List (String × PyValue))
  | emptyDoc
  | yamlError (e : String)
  | notFound
  | otherError (e : String)

/-- Embedding of `InputLoader.load_and_validate` (inputs.py lines
90-115).  The extension check of lines 94-96 comes before any use of
the filesystem oracle `fs`; the `try/except` of lines 98-115 maps the
read outcome and `validate_config` result to the raised errors. -/
def load_and_validate (fs : String → FileReadOutcome)
    (file_path : String) : Except String (List (String × PyValue)) :=
  if strLower (pathSuffix file_path) ∈ [".yaml", ".yml"] then
    match fs file_path with
    | .mapping kvs =>
      match validate_config kvs with
      | Except.error e => Except.error e
      | Except.ok _ => Except.ok kvs
    | .emptyDoc =>
      Except.error ("YAML file " ++ file_path ++ " is empty or invalid")
    | .yamlError e =>
      Except.error ("Invalid YAML syntax in " ++ file_path ++ ": " ++ e)
    | .notFound =>
      Except.error ("Configuration file not found: " ++ file_path)
    | .otherError e =>
      Except.error ("Error loading configuration from " ++ file_path ++
        ": " ++ e)
  else
    Except.error ("Only YAML files (.yaml, .yml) are supported. Got: " ++
      pathSuffix file_path)

/-- Embedding of `InputLoader.auto_detect_and_load` (inputs.py lines
48-63); the three loaders are oracles. -/
def auto_detect_and_load
    (loadJson loadYaml loadModule : String → Except String (List (String × PyValue)))
    (file_path : String) : Except String (List (String × PyValue)) :=
  let extension := strLower (pathSuffix file_path)
  if extension = ".json" then loadJson file_path
  else if extension ∈ [".yaml", ".yml"] then loadYaml file_path
  else if extension = ".py" then loadModule file_path
  else
    Except.error ("Unsupported file type: " ++ extension ++
      ". Supported types: .json, .yaml, .yml, .py")

/-! ### ProductCritiquer.cleanup (crew.py 42-51) and main.run
(main.py 82-86) -/

/-- The Stagehand browser tool handle, abstracted to the one behaviour
`cleanup` can observe: whether `close()` raises in the tool's current
browser state. -/
structure StagehandTool where
  closeRaises : Bool
deriving DecidableEq, Inhabited

/-- The slice of `ProductCritiquer`'s state that `cleanup` touches:
`self.stagehand_tool`, which is a tool handle or `None`. -/
structure ProductCritiquerState where
  stagehand_tool : Option StagehandTool
deriving DecidableEq, Inhabited

/-- The `try` body of `cleanup` (crew.py lines 45-47): skip when the
attribute is `None`, otherwise `close()` (which may raise) and then
set `stagehand_tool = None`.  A raising `close()` leaves the state
unchanged, since the assignment follows the call. -/
def cleanupTry (st : ProductCritiquerState) :
    Except String ProductCritiquerState :=
  match st.stagehand_tool with
  | Option.none => Except.ok st
  | some tool =>
    if tool.closeRaises then Except.error "close failed"
    else Except.ok { st with stagehand_tool := Option.none }

/-- Embedding of the whole `cleanup` method (crew.py lines 42-51) in
the exception monad: the `except Exception: pass` turns every error of
the `try` body into a normal return with the state as the exception
left it. -/
def cleanupMethod (st : ProductCritiquerState) :
    Except String ProductCritiquerState :=
  match cleanupTry st with
  | Except.ok st' => Except.ok st'
  | Except.error _ => Except.ok st

/-- `cleanup` as a state transformer (it never raises). -/
def cleanup (st : ProductCritiquerState) : ProductCritiquerState :=
  match cleanupMethod st with
  | Except.ok st' => st'
  | Except.error _ => st

/-- Embedding of the `try/finally` of `run` (main.py lines 82-86):
whatever the kickoff does — return a result or raise — `cleanup` runs,
and the kickoff's outcome is then propagated unchanged. -/
def runMain (st : ProductCritiquerState)
    (kickoffOutcome : Except String String) :
    ProductCritiquerState × Except String String :=
  match kickoffOutcome with
  | Except.ok r => (cleanup st, Except.ok r)
  | Except.error e => (cleanup st, Except.error e)

/-! ### Proof-side decompositions of one loop iteration -/

/-- The value of `navigation_approved` after one execution of the
`if/elif/elif/else` chain of crew.py lines 205-231, as a function of
the iteration's parsed verification output and the incremented
counter `count'`.  (Proof-side restatement of the branch structure of
`loopGo`; `loopGo_succ_of_running` below proves it agrees.) -/
def stepApproved (vr' : Option NavigationVerificationOutput)
    (count' : Nat) : Bool :=
  if decisionOf vr' = "PROCEED" then true
  else if decisionOf vr' = "ACCEPTABLE_WITH_MAX_ATTEMPTS" then true
  else if decisionOf vr' = "RETRY" ∧ count' < max_navigation_retries then false
  else true

/-- The printed-guidance log after one execution of the branch chain
(crew.py line 225 appends only in the `RETRY`-below-limit branch, and
only when the pydantic output is available). -/
def stepPrn (vr' : Option NavigationVerificationOutput) (count' : Nat)
    (prn : List String) : List String :=
  if decisionOf vr' = "RETRY" ∧ count' < max_navigation_retries then
    match vr' with
    | some out => prn ++ [out.retry_guidance]
    | Option.none => prn
  else prn

/-! ### Concrete values used by counterexamples and witnesses -/

/-- A verification output whose decision is `RETRY` and whose
`task_verifications` list contains no retryable task (pydantic accepts
this value: the model has no validator relating `final_decision` to
`task_verifications`). -/
def badVerdict : NavigationVerificationOutput :=
  { persona_type := "Full-stack developer"
    url_tested := "https://news.ycombinator.com/"
    overall_assessment := .needs_improvement
    task_verifications := []
    completion_rate := 0.0
    final_decision := .RETRY }

/-- A `TestingInstructionResult` with `attempts_made > max_attempts`
and `fallback_executed = true` together with
`success_criteria_met = true` (pydantic accepts this value: the model
has no validator relating these fields). -/
def badInstructionResult : TestingInstructionResult :=
  { task_description := "Explore the main interface"
    priority := "high"
    max_attempts := 3
    attempts_made := 5
    success_criteria := "Gain understanding of the application"
    success_criteria_met := true
    fallback_action := "Document any confusion and continue"
    fallback_executed := true
    completion_notes := "ran past the budget"
    final_status := "failed" }

/-- A first-attempt verification output that asks for a retry and
carries concrete retry guidance. -/
def cexRetryVerdict : NavigationVerificationOutput :=
  { persona_type := "Full-stack developer"
    url_tested := "https://news.ycombinator.com/"
    overall_assessment := .needs_improvement
    task_verifications := []
    completion_rate := 0.0
    final_decision := .RETRY
    retry_guidance := "use the search bar" }

/-- A second-attempt verification output that approves. -/
def cexProceedVerdict : NavigationVerificationOutput :=
  { persona_type := "Full-stack developer"
    url_tested := "https://news.ycombinator.com/"
    overall_assessment := .satisfactory
    task_verifications := []
    completion_rate := 1.0
    final_decision := .PROCEED }

/-- A concrete verifier trace: `RETRY` (with guidance) on attempt 1,
`PROCEED` afterwards. -/
def cexVerdicts : Nat → Option NavigationVerificationOutput
  | 0 => some cexRetryVerdict
  | _ => some cexProceedVerdict

/-- A concrete verifier trace that returns `RETRY` on every attempt. -/
def cexAllRetryVerdicts : Nat → Option NavigationVerificationOutput :=
  fun _ => some cexRetryVerdict

/-- A concrete inputs dictionary (as built by `main.run`), which does
not mention the retry guidance of `cexRetryVerdict` anywhere. -/
def cexInputs : List (String × PyValue) :=
  [("app_url", .str "https://news.ycombinator.com/"),
   ("persona_type", .str "Full-stack developer")]

/-- A configuration that `validate_config` accepts although its
`max_attempts` is the negative integer `-1` (the spec requires a
positive integer there). -/
def cfgBad : List (String × PyValue) :=
  [("app_url", .str "https://news.ycombinator.com/"),
   ("persona_type", .str "Full-stack developer"),
   ("testing_instructions", .list [.dict
     [("task", .str "Explore the main interface"),
      ("priority", .str "high"),
      ("max_attempts", .int (-1)),
      ("success_criteria", .str "Gain understanding"),
      ("fallback_action", .str "Document and continue")]])]

/-! ### Lemmas about the retry loop -/

/-- A loop entered with `navigation_approved = true` exits at once
with its state unchanged (the guard fails immediately). -/
theorem loopGo_of_approved (verdicts : Nat → Option NavigationVerificationOutput)
    (inputs : List (String × PyValue)) (fuel count : Nat)
    (vr : Option NavigationVerificationOutput)
    (atts : List (List (String × PyValue))) (prn : List String) :
    loopGo verdicts inputs fuel count true vr atts prn =
      ⟨count, true, vr, atts, prn⟩ := by
  cases fuel with
  | zero => rfl
  | succ n => simp [loopGo]

/-- One running iteration of the loop equals the tail call with the
counter bumped, the inputs re-sent to the navigation crew, and the
approved flag / printed guidance given by the branch chain. -/
theorem loopGo_succ_of_running (verdicts : Nat → Option NavigationVerificationOutput)
    (inputs : List (String × PyValue)) (n count : Nat)
    (vr : Option NavigationVerificationOutput)
    (atts : List (List (String × PyValue))) (prn : List String)
    (hc : count < max_navigation_retries) :
    loopGo verdicts inputs (n + 1) count false vr atts prn =
      loopGo verdicts inputs n (count + 1)
        (stepApproved (verdicts count) (count + 1)) (verdicts count)
        (atts ++ [inputs]) (stepPrn (verdicts count) (count + 1) prn) := by
  have hg : ¬(false = true ∨ max_navigation_retries ≤ count) := by
    rintro (h | h)
    · exact Bool.false_ne_true h
    · omega
  simp only [loopGo]
  rw [if_neg hg]
  unfold stepApproved stepPrn
  by_cases h1 : decisionOf (verdicts count) = "PROCEED"
  · have h3 : ¬(decisionOf (verdicts count) = "RETRY" ∧
        count + 1 < max_navigation_retries) := by
      rintro ⟨h, _⟩; rw [h1] at h; exact absurd h (by decide)
    simp [h1, h3]
  · by_cases h2 : decisionOf (verdicts count) = "ACCEPTABLE_WITH_MAX_ATTEMPTS"
    · have h3 : ¬(decisionOf (verdicts count) = "RETRY" ∧
          count + 1 < max_navigation_retries) := by
        rintro ⟨h, _⟩; rw [h2] at h; exact absurd h (by decide)
      simp [h1, h2, h3]
    · by_cases h3 : decisionOf (verdicts count) = "RETRY" ∧
          count + 1 < max_navigation_retries
      · simp [h1, h2, h3]
      · simp [h1, h2, h3]

/-- The only branch that leaves `navigation_approved` false is the
`RETRY`-below-limit branch, so a false flag certifies that the bumped
counter is still below the limit. -/
theorem stepApproved_false_lt (vr' : Option NavigationVerificationOutput)
    (count' : Nat) (h : stepApproved vr' count' = false) :
    count' < max_navigation_retries := by
  unfold stepApproved at h
  by_cases h1 : decisionOf vr' = "PROCEED"
  · simp [h1] at h
  · by_cases h2 : decisionOf vr' = "ACCEPTABLE_WITH_MAX_ATTEMPTS"
    · simp [h1, h2] at h
    · by_cases h3 : decisionOf vr' = "RETRY" ∧ count' < max_navigation_retries
      · exact h3.2
      · simp [h1, h2, h3] at h

/-- A `RETRY` decision below the limit leaves the flag false. -/
theorem stepApproved_retry_lt (vr' : Option NavigationVerificationOutput)
    (count' : Nat) (hd : decisionOf vr' = "RETRY")
    (hc : count' < max_navigation_retries) :
    stepApproved vr' count' = false := by
  unfold stepApproved
  rw [hd, if_neg (by decide), if_neg (by decide), if_pos ⟨rfl, hc⟩]

/-- A `RETRY` decision at the limit is forced to acceptance by the
else branch. -/
theorem stepApproved_retry_ge (vr' : Option NavigationVerificationOutput)
    (count' : Nat) (hd : decisionOf vr' = "RETRY")
    (hc : ¬ count' < max_navigation_retries) :
    stepApproved vr' count' = true := by
  unfold stepApproved
  rw [hd, if_neg (by decide), if_neg (by decide),
    if_neg (fun hco => hc hco.2)]

/-- A parseable `RETRY` verdict below the limit appends its guidance
to the printed log. -/
theorem stepPrn_retry (out : NavigationVerificationOutput) (count' : Nat)
    (prn : List String)
    (hd : out.final_decision = VerificationDecision.RETRY)
    (hc : count' < max_navigation_retries) :
    stepPrn (some out) count' prn = prn ++ [out.retry_guidance] := by
  have hdd : decisionOf (some out) = "RETRY" := by
    rw [show decisionOf (some out) = out.final_decision.value from rfl, hd]
    rfl
  unfold stepPrn
  rw [if_pos ⟨hdd, hc⟩]

/-- The printed log only grows during an iteration. -/
theorem mem_stepPrn (vr' : Option NavigationVerificationOutput)
    (count' : Nat) (prn : List String) (s : String) (hs : s ∈ prn) :
    s ∈ stepPrn vr' count' prn := by
  unfold stepPrn
  split
  · split
    · exact List.mem_append_left _ hs
    · exact hs
  · exact hs

/-- Main invariant of the loop: entered below the limit with enough
fuel, it exits approved, with the counter bounded by the limit and
strictly increased, every kicked-off inputs dictionary equal to the
original one, one kickoff per counted attempt, and the printed log
preserved. -/
theorem loopGo_spec (verdicts : Nat → Option NavigationVerificationOutput)
    (inputs : List (String × PyValue)) :
    ∀ (fuel count : Nat) (approved : Bool)
      (vr : Option NavigationVerificationOutput)
      (atts : List (List (String × PyValue))) (prn : List String),
      max_navigation_retries ≤ count + fuel →
      (approved = false → count < max_navigation_retries) →
      count ≤ max_navigation_retries →
      (loopGo verdicts inputs fuel count approved vr atts prn).navigation_approved = true ∧
      (loopGo verdicts inputs fuel count approved vr atts prn).navigation_retry_count ≤
        max_navigation_retries ∧
      count ≤ (loopGo verdicts inputs fuel count approved vr atts prn).navigation_retry_count ∧
      (approved = false →
        count < (loopGo verdicts inputs fuel count approved vr atts prn).navigation_retry_count) ∧
      (∀ x ∈ (loopGo verdicts inputs fuel count approved vr atts prn).attempts_inputs,
        x ∈ atts ∨ x = inputs) ∧
      (loopGo verdicts inputs fuel count approved vr atts prn).attempts_inputs.length + count =
        atts.length +
          (loopGo verdicts inputs fuel count approved vr atts prn).navigation_retry_count ∧
      (∀ s ∈ prn,
        s ∈ (loopGo verdicts inputs fuel count approved vr atts prn).printed_guidance) := by
  intro fuel
  induction fuel with
  | zero =>
    intro count approved vr atts prn hcf happ hc3
    cases approved with
    | false => exact absurd (happ rfl) (by omega)
    | true =>
      exact ⟨rfl, hc3, le_refl _, by simp, fun x hx => Or.inl hx, rfl,
        fun s hs => hs⟩
  | succ n ih =>
    intro count approved vr atts prn hcf happ hc3
    cases approved with
    | true =>
      rw [loopGo_of_approved]
      exact ⟨rfl, hc3, le_refl _, by simp, fun x hx => Or.inl hx, rfl,
        fun s hs => hs⟩
    | false =>
      have hlt : count < max_navigation_retries := happ rfl
      rw [loopGo_succ_of_running verdicts inputs n count vr atts prn hlt]
      obtain ⟨h1, h2, h3, _, h5, h6, h7⟩ :=
        ih (count + 1) (stepApproved (verdicts count) (count + 1))
          (verdicts count) (atts ++ [inputs])
          (stepPrn (verdicts count) (count + 1) prn)
          (by omega) (fun hfalse => stepApproved_false_lt _ _ hfalse)
          (by omega)
      refine ⟨h1, h2, by omega, fun _ => by omega, ?_, ?_, ?_⟩
      · intro x hx
        rcases h5 x hx with hx' | hx'
        · rcases List.mem_append.mp hx' with hmem | hmem
          · exact Or.inl hmem
          · right; simpa using hmem
        · exact Or.inr hx'
      · rw [List.length_append] at h6
        simp only [List.length_singleton] at h6
        omega
      · intro s hs
        exact h7 s (mem_stepPrn _ _ _ _ hs)

/-- When every verdict is `RETRY`, the loop runs its full budget: the
counter reaches the limit exactly. -/
theorem loopGo_all_retry (verdicts : Nat → Option NavigationVerificationOutput)
    (inputs : List (String × PyValue))
    (h : ∀ i, decisionOf (verdicts i) = "RETRY") :
    ∀ (fuel count : Nat) (vr : Option NavigationVerificationOutput)
      (atts : List (List (String × PyValue))) (prn : List String),
      count < max_navigation_retries →
      max_navigation_retries ≤ count + fuel →
      (loopGo verdicts inputs fuel count false vr atts prn).navigation_retry_count =
        max_navigation_retries := by
  intro fuel
  induction fuel with
  | zero =>
    intro count vr atts prn hlt hcf
    exact absurd hcf (by omega)
  | succ n ih =>
    intro count vr atts prn hlt hcf
    rw [loopGo_succ_of_running verdicts inputs n count vr atts prn hlt]
    by_cases h2 : count + 1 < max_navigation_retries
    · rw [stepApproved_retry_lt _ _ (h count) h2]
      exact ih (count + 1) _ _ _ h2 (by omega)
    · rw [stepApproved_retry_ge _ _ (h count) h2, loopGo_of_approved]
      show count + 1 = max_navigation_retries
      omega

/-! ### Lemmas about validate_config -/

/-- One required top-level field passes exactly when it is present,
truthy and a string. -/
theorem checkTopField_ok_iff (config : List (String × PyValue)) (f : String) :
    checkTopField config f = Except.ok () ↔ topFieldOk config f = true := by
  cases h : config.lookup f with
  | none => simp [checkTopField, topFieldOk, h]
  | some v =>
    by_cases hv : truthy v = false ∨ isStr v = false
    · have hb : ¬ (truthy v && isStr v) = true := by
        rcases hv with h1 | h1 <;> simp [h1]
      simp [checkTopField, topFieldOk, h, hv, hb]
    · push_neg at hv
      obtain ⟨h1, h2⟩ := hv
      simp only [ne_eq, Bool.not_eq_false] at h1 h2
      simp [checkTopField, topFieldOk, h, h1, h2]

/-- The loop over the required top-level fields passes exactly when
every field passes. -/
theorem checkTopFields_ok_iff (config : List (String × PyValue)) :
    ∀ fs : List String,
      checkTopFields config fs = Except.ok () ↔
        fs.all (topFieldOk config) = true := by
  intro fs
  induction fs with
  | nil => simp [checkTopFields]
  | cons f rest ih =>
    unfold checkTopFields
    cases hf : checkTopField config f with
    | error e =>
      have hne : ¬ topFieldOk config f = true := by
        intro h
        rw [(checkTopField_ok_iff config f).2 h] at hf
        exact absurd hf (by simp)
      simp [hne]
    | ok u =>
      cases u
      have hok : topFieldOk config f = true := (checkTopField_ok_iff config f).1 hf
      simp [hok, ih]

/-- The loop over the required instruction fields passes exactly when
every key is present. -/
theorem checkInstructionFields_ok_iff (i : Nat)
    (instr : List (String × PyValue)) :
    ∀ fs : List String,
      checkInstructionFields i instr fs = Except.ok () ↔
        fs.all (fun f => (instr.lookup f).isSome) = true := by
  intro fs
  induction fs with
  | nil => simp [checkInstructionFields]
  | cons f rest ih =>
    unfold checkInstructionFields
    by_cases hf : (instr.lookup f).isNone
    · rw [if_pos hf]
      rw [Option.isNone_iff_eq_none] at hf
      simp [hf]
    · rw [if_neg hf]
      have hs : (instr.lookup f).isSome = true := by
        cases ho : instr.lookup f with
        | none => rw [ho] at hf; exact absurd rfl hf
        | some v => rfl
      simp [hs, ih]

/-- The loop over the instruction list passes exactly when every
entry is a dictionary carrying all required keys (the enumeration
index is irrelevant to acceptance). -/
theorem checkInstructions_ok_iff :
    ∀ (xs : List PyValue) (i : Nat),
      checkInstructions i xs = Except.ok () ↔
        xs.all instrEntryOk = true := by
  intro xs
  induction xs with
  | nil => intro i; simp [checkInstructions]
  | cons x rest ih =>
    intro i
    unfold checkInstructions
    cases x with
    | dict kvs =>
      cases hcf : checkInstructionFields i kvs requiredInstructionFields with
      | error e =>
        have hne : ¬ instrEntryOk (PyValue.dict kvs) = true := by
          intro h
          rw [show instrEntryOk (PyValue.dict kvs) =
              requiredInstructionFields.all (fun f => (kvs.lookup f).isSome)
            from rfl] at h
          rw [(checkInstructionFields_ok_iff i kvs
            requiredInstructionFields).2 h] at hcf
          exact absurd hcf (by simp)
        simp [hcf, hne]
      | ok u =>
        cases u
        have hok : instrEntryOk (PyValue.dict kvs) = true :=
          (checkInstructionFields_ok_iff i kvs requiredInstructionFields).1 hcf
        simp [hcf, hok, ih]
    | str s => simp [instrEntryOk]
    | int n => simp [instrEntryOk]
    | bool b => simp [instrEntryOk]
    | list ys => simp [instrEntryOk]
    | none => simp [instrEntryOk]

/-! ### Claim theorems -/

/-- Claim C1, counterexample: a concrete execution in which the
verifier returns `RETRY` (with guidance) on attempt 1, below the
global limit, yet the inputs passed to the navigation run of attempt 2
are the unchanged original inputs, which do not include (do not even
mention) the retry guidance.  This refutes "the inputs passed to the
navigation run of attempt n+1 include the retry_guidance produced by
verifying attempt n". -/
theorem C1_counterexample :
    cexVerdicts 0 = some cexRetryVerdict ∧
    cexRetryVerdict.final_decision = VerificationDecision.RETRY ∧
    (runLoop cexVerdicts cexInputs).navigation_retry_count = 2 ∧
    (runLoop cexVerdicts cexInputs).attempts_inputs = [cexInputs, cexInputs] ∧
    inputsMention cexInputs cexRetryVerdict.retry_guidance = false ∧
    (runLoop cexVerdicts cexInputs).printed_guidance =
      [cexRetryVerdict.retry_guidance] :=
  ⟨rfl, rfl, rfl, rfl, rfl, rfl⟩

/-- Claim C1, amended: every navigation attempt (attempt n+1
included) is kicked off with the literal original inputs dictionary;
the retry guidance produced by verifying a first-attempt `RETRY` is
only extracted and printed, never folded into the next attempt's
inputs. -/
theorem C1_guidance_printed_not_folded
    (verdicts : Nat → Option NavigationVerificationOutput)
    (inputs : List (String × PyValue)) :
    (∀ x ∈ (runLoop verdicts inputs).attempts_inputs, x = inputs) ∧
    (∀ out : NavigationVerificationOutput, verdicts 0 = some out →
      out.final_decision = VerificationDecision.RETRY →
      out.retry_guidance ∈ (runLoop verdicts inputs).printed_guidance) := by
  constructor
  · intro x hx
    unfold runLoop at hx
    rcases (loopGo_spec verdicts inputs max_navigation_retries 0 false
        Option.none [] [] (by omega) (fun _ => by decide)
        (by decide)).2.2.2.2.1 x hx with h | h
    · exact absurd h (List.not_mem_nil x)
    · exact h
  · intro out hout hret
    unfold runLoop
    rw [show max_navigation_retries = 2 + 1 from rfl,
      loopGo_succ_of_running verdicts inputs 2 0 Option.none [] [] (by decide),
      hout, stepPrn_retry out 1 [] hret (by decide)]
    refine (loopGo_spec verdicts inputs 2 1 (stepApproved (some out) 1)
        (some out) ([] ++ [inputs]) ([] ++ [out.retry_guidance]) (by decide)
        (fun hf => stepApproved_false_lt _ _ hf) (by decide)).2.2.2.2.2.2
      out.retry_guidance (by simp)

/-- Claim C1, witness for the amended theorem at the concrete
execution `cexVerdicts` / `cexInputs`. -/
theorem C1_guidance_printed_not_folded_witness :
    cexInputs = cexInputs ∧
    cexRetryVerdict.retry_guidance ∈
      (runLoop cexVerdicts cexInputs).printed_guidance :=
  ⟨(C1_guidance_printed_not_folded cexVerdicts cexInputs).1 cexInputs
      (by rw [show (runLoop cexVerdicts cexInputs).attempts_inputs =
              [cexInputs, cexInputs] from rfl]
          exact List.mem_cons_self _ _),
   (C1_guidance_printed_not_folded cexVerdicts cexInputs).2
      cexRetryVerdict rfl rfl⟩

/-- Claim C2: for every sequence of verifier decisions the loop
terminates (the embedding is a total function) with the attempt
counter between 1 and `max_navigation_retries = 3`, and with exactly
one navigation kickoff per counted attempt — hence at most 3
iterations. -/
theorem C2_loop_bounded
    (verdicts : Nat → Option NavigationVerificationOutput)
    (inputs : List (String × PyValue)) :
    1 ≤ (runLoop verdicts inputs).navigation_retry_count ∧
    (runLoop verdicts inputs).navigation_retry_count ≤ max_navigation_retries ∧
    (runLoop verdicts inputs).attempts_inputs.length =
      (runLoop verdicts inputs).navigation_retry_count := by
  unfold runLoop
  obtain ⟨-, h2, -, h4, -, h6, -⟩ :=
    loopGo_spec verdicts inputs max_navigation_retries 0 false Option.none
      [] [] (by omega) (fun _ => by decide) (by decide)
  exact ⟨h4 rfl, h2, by simpa using h6⟩

/-- Claim C3: on every exit of the loop `navigation_approved = true`;
and when the verifier returns `RETRY` on every attempt — in
particular on the last allowed one — the loop still exits approved
after exactly `max_navigation_retries` iterations (forced acceptance,
no further iteration). -/
theorem C3_exit_approved
    (verdicts : Nat → Option NavigationVerificationOutput)
    (inputs : List (String × PyValue)) :
    (runLoop verdicts inputs).navigation_approved = true ∧
    ((∀ i, decisionOf (verdicts i) = "RETRY") →
      (runLoop verdicts inputs).navigation_retry_count =
        max_navigation_retries) := by
  constructor
  · unfold runLoop
    exact (loopGo_spec verdicts inputs max_navigation_retries 0 false
      Option.none [] [] (by omega) (fun _ => by decide) (by decide)).1
  · intro h
    unfold runLoop
    exact loopGo_all_retry verdicts inputs h max_navigation_retries 0
      Option.none [] [] (by decide) (by omega)

/-- Claim C3, witness: at the all-`RETRY` trace the loop exits
approved with the counter equal to the limit. -/
theorem C3_exit_approved_witness :
    (runLoop cexAllRetryVerdicts cexInputs).navigation_approved = true ∧
    (runLoop cexAllRetryVerdicts cexInputs).navigation_retry_count =
      max_navigation_retries :=
  ⟨(C3_exit_approved cexAllRetryVerdicts cexInputs).1,
   (C3_exit_approved cexAllRetryVerdicts cexInputs).2 (fun _ => rfl)⟩

/-- Claim C4: a verification result with no parseable pydantic verdict
is treated as the decision string `"PROCEED"`, and if it occurs at
iteration k+1 (after k `RETRY` iterations, k below the limit) the loop
sets `navigation_approved = true` and terminates in that same
iteration, with the counter k+1 — at iteration 1 when it is the first
attempt.  No error is raised: the fallback is a normal branch of the
total loop function. -/
theorem C4_unparseable_is_proceed
    (verdicts : Nat → Option NavigationVerificationOutput)
    (inputs : List (String × PyValue)) (k : Nat)
    (hk : k < max_navigation_retries)
    (hprev : ∀ j, j < k → decisionOf (verdicts j) = "RETRY")
    (hnone : verdicts k = Option.none) :
    decisionOf (verdicts k) = "PROCEED" ∧
    (runLoop verdicts inputs).navigation_retry_count = k + 1 ∧
    (runLoop verdicts inputs).navigation_approved = true := by
  have hdk : decisionOf (verdicts k) = "PROCEED" := by rw [hnone]; rfl
  have hap : stepApproved (verdicts k) (k + 1) = true := by
    unfold stepApproved
    rw [hdk, if_pos rfl]
  refine ⟨hdk, ?_⟩
  have hk3 : k < 3 := hk
  unfold runLoop
  rw [show max_navigation_retries = 2 + 1 from rfl]
  interval_cases k
  · rw [loopGo_succ_of_running verdicts inputs 2 0 Option.none [] []
      (by decide), hap, loopGo_of_approved]
    exact ⟨rfl, rfl⟩
  · rw [loopGo_succ_of_running verdicts inputs 2 0 Option.none [] []
      (by decide),
      stepApproved_retry_lt _ _ (hprev 0 (by decide)) (by decide),
      loopGo_succ_of_running verdicts inputs 1 1 _ _ _ (by decide),
      hap, loopGo_of_approved]
    exact ⟨rfl, rfl⟩
  · rw [loopGo_succ_of_running verdicts inputs 2 0 Option.none [] []
      (by decide),
      stepApproved_retry_lt _ _ (hprev 0 (by decide)) (by decide),
      loopGo_succ_of_running verdicts inputs 1 1 _ _ _ (by decide),
      stepApproved_retry_lt _ _ (hprev 1 (by decide)) (by decide),
      loopGo_succ_of_running verdicts inputs 0 2 _ _ _ (by decide),
      hap, loopGo_of_approved]
    exact ⟨rfl, rfl⟩

/-- Claim C4, witness: with no parseable verdict on the very first
attempt the loop terminates at iteration 1, approved. -/
theorem C4_unparseable_is_proceed_witness :
    decisionOf ((fun _ => Option.none :
        Nat → Option NavigationVerificationOutput) 0) = "PROCEED" ∧
    (runLoop (fun _ => Option.none) cexInputs).navigation_retry_count = 1 ∧
    (runLoop (fun _ => Option.none) cexInputs).navigation_approved = true :=
  C4_unparseable_is_proceed (fun _ => Option.none) cexInputs 0 (by decide)
    (fun j hj => absurd hj (Nat.not_lt_zero j)) rfl

/-- Claim C5, counterexample: `badVerdict` is a constructible
`NavigationVerificationOutput` whose `final_decision` is `RETRY` while
no element of `task_verifications` has `can_retry = true` — the
verdict type and its validation do NOT make such a value
unrepresentable. -/
theorem C5_counterexample :
    badVerdict.final_decision = VerificationDecision.RETRY ∧
    badVerdict.task_verifications.any (fun t => t.can_retry) = false :=
  ⟨rfl, rfl⟩

/-- Claim C5, amended: the model performs no cross-field validation,
so a `RETRY` verdict with no retryable task is representable: there
exists a constructible `NavigationVerificationOutput` with
`final_decision = RETRY` and no `task_verifications` element with
`can_retry = true`. -/
theorem C5_retry_without_retryable_representable :
    ∃ v : NavigationVerificationOutput,
      v.final_decision = VerificationDecision.RETRY ∧
      v.task_verifications.any (fun t => t.can_retry) = false :=
  ⟨badVerdict, rfl, rfl⟩

/-- Claim C6, counterexample: `badInstructionResult` is a
constructible `TestingInstructionResult` with
`attempts_made > max_attempts` and with `fallback_executed = true`
while `success_criteria_met = true` — both claimed data-model
invariants fail on it. -/
theorem C6_counterexample :
    ¬ (badInstructionResult.attempts_made ≤
        badInstructionResult.max_attempts ∧
      (badInstructionResult.fallback_executed = true →
        badInstructionResult.success_criteria_met = false)) := by
  rintro ⟨h, -⟩
  exact absurd h (by decide)

/-- Claim C6, amended: `TestingInstructionResult` enforces neither
invariant; a value with `attempts_made > max_attempts`,
`fallback_executed = true` and `success_criteria_met = true` is
constructible. -/
theorem C6_invariants_not_enforced :
    ∃ r : TestingInstructionResult,
      r.max_attempts < r.attempts_made ∧
      r.fallback_executed = true ∧
      r.success_criteria_met = true :=
  ⟨badInstructionResult, by decide, rfl, rfl⟩

/-- Claim C7, counterexample: `cfgBad` has all required fields, and
its only testing instruction carries all five keys but
`max_attempts = -1`, which is not a positive integer.  The claim says
`validate_config` raises on it ("max_attempts required to be a
positive integer"); the code accepts it. -/
theorem C7_counterexample :
    validate_config cfgBad = Except.ok () ∧
    spec_configOk cfgBad = false :=
  ⟨rfl, rfl⟩

/-- Claim C7, amended: `validate_config` raises exactly when
`app_url` or `persona_type` is absent, falsy or not a string, or
`testing_instructions` is present but not a list, or one of its
entries is not a dictionary, or an entry lacks one of the keys
`task`, `priority`, `max_attempts`, `success_criteria`,
`fallback_action`.  It checks only the presence of those keys: the
values — `max_attempts` included — are never inspected. -/
theorem C7_validate_config_characterisation
    (config : List (String × PyValue)) :
    validate_config config = Except.ok () ↔
      configAccepted config = true := by
  unfold validate_config configAccepted
  cases hc : checkTopFields config requiredFields with
  | error e =>
    have hne : ¬ requiredFields.all (topFieldOk config) = true := by
      intro hall
      rw [(checkTopFields_ok_iff config requiredFields).2 hall] at hc
      exact absurd hc (by simp)
    simp [hne]
  | ok u =>
    cases u
    have hall : requiredFields.all (topFieldOk config) = true :=
      (checkTopFields_ok_iff config requiredFields).1 hc
    rw [hall]
    cases hti : config.lookup "testing_instructions" with
    | none => simp
    | some v =>
      cases v with
      | list xs => simpa using checkInstructions_ok_iff xs 0
      | str s => simp
      | int n => simp
      | bool b => simp
      | dict kvs => simp
      | none => simp

/-- Claim C9: `cleanup` never propagates an exception (every outcome
of the `try` body, a raising `close()` included, yields a normal
return); after a successful close it sets `stagehand_tool` to `None`;
on a state whose `stagehand_tool` is already `None` it is a no-op, so
a second call after a successful close does nothing; and `run`'s
`try/finally` applies `cleanup` on every exit path — normal return
and raised exception alike — while propagating the kickoff outcome
unchanged. -/
theorem C9_cleanup_never_raises :
    (∀ st : ProductCritiquerState, ∃ st', cleanupMethod st = Except.ok st') ∧
    (∀ (st : ProductCritiquerState) (tool : StagehandTool),
      st.stagehand_tool = some tool → tool.closeRaises = false →
      cleanupMethod st = Except.ok { stagehand_tool := Option.none }) ∧
    (∀ st : ProductCritiquerState, st.stagehand_tool = Option.none →
      cleanupMethod st = Except.ok st) ∧
    (∀ (st : ProductCritiquerState) (k : Except String String),
      (runMain st k).1 = cleanup st ∧ (runMain st k).2 = k) := by
  refine ⟨?_, ?_, ?_, ?_⟩
  · intro st
    cases hst : st.stagehand_tool with
    | none => exact ⟨st, by simp [cleanupMethod, cleanupTry, hst]⟩
    | some tool =>
      cases hr : tool.closeRaises with
      | false =>
        exact ⟨{ st with stagehand_tool := Option.none },
          by simp [cleanupMethod, cleanupTry, hst, hr]⟩
      | true => exact ⟨st, by simp [cleanupMethod, cleanupTry, hst, hr]⟩
  · intro st tool hst hr
    simp [cleanupMethod, cleanupTry, hst, hr]
  · intro st hst
    simp [cleanupMethod, cleanupTry, hst]
  · intro st k
    cases k with
    | ok r => exact ⟨rfl, rfl⟩
    | error e => exact ⟨rfl, rfl⟩

/-- Claim C9, witness: a successful close nulls the tool, a second
call is a no-op, and the finally path runs `cleanup` even when the
kickoff raises. -/
theorem C9_cleanup_never_raises_witness :
    cleanupMethod ⟨some ⟨false⟩⟩ = Except.ok ⟨Option.none⟩ ∧
    cleanupMethod ⟨Option.none⟩ = Except.ok ⟨Option.none⟩ ∧
    (runMain ⟨some ⟨true⟩⟩ (Except.error "boom")).1 =
      cleanup ⟨some ⟨true⟩⟩ ∧
    (∃ st', cleanupMethod ⟨some ⟨true⟩⟩ = Except.ok st') :=
  ⟨C9_cleanup_never_raises.2.1 ⟨some ⟨false⟩⟩ ⟨false⟩ rfl rfl,
   C9_cleanup_never_raises.2.2.1 ⟨Option.none⟩ rfl,
   (C9_cleanup_never_raises.2.2.2 ⟨some ⟨true⟩⟩ (Except.error "boom")).1,
   C9_cleanup_never_raises.1 ⟨some ⟨true⟩⟩⟩

/-- Claim C10: for every file path whose lower-cased suffix is neither
`.yaml` nor `.yml`, `load_and_validate` raises the `ValueError`
"Only YAML files ..." — for every filesystem oracle, i.e. before the
file is opened — including for `.json` and `.py` paths, which
`auto_detect_and_load` would instead route to its JSON / module
loaders. -/
theorem C10_yaml_extension_gate (fs : String → FileReadOutcome)
    (p : String)
    (h : strLower (pathSuffix p) ∉ [".yaml", ".yml"]) :
    load_and_validate fs p =
      Except.error ("Only YAML files (.yaml, .yml) are supported. Got: " ++
        pathSuffix p) ∧
    ∀ loadJson loadYaml loadModule :
        String → Except String (List (String × PyValue)),
      (strLower (pathSuffix p) = ".json" →
        auto_detect_and_load loadJson loadYaml loadModule p = loadJson p) ∧
      (strLower (pathSuffix p) = ".py" →
        auto_detect_and_load loadJson loadYaml loadModule p = loadModule p) := by
  constructor
  · unfold load_and_validate
    rw [if_neg h]
  · intro loadJson loadYaml loadModule
    constructor
    · intro hj
      unfold auto_detect_and_load
      rw [hj, if_pos rfl]
    · intro hp
      unfold auto_detect_and_load
      rw [hp, if_neg (by decide), if_neg (by decide), if_pos rfl]

/-- Claim C10, witness: `inputs.json` — a path `auto_detect_and_load`
would accept — is rejected by `load_and_validate` with the extension
error, independently of the filesystem. -/
theorem C10_yaml_extension_gate_witness :
    load_and_validate (fun _ => FileReadOutcome.notFound) "inputs.json" =
      Except.error ("Only YAML files (.yaml, .yml) are supported. Got: " ++
        pathSuffix "inputs.json") ∧
    auto_detect_and_load (fun _ => Except.ok cexInputs)
        (fun _ => Except.error "y") (fun _ => Except.error "m")
        "inputs.json" =
      (fun _ => Except.ok (α := List (String × PyValue)) cexInputs)
        "inputs.json" :=
  ⟨(C10_yaml_extension_gate (fun _ => FileReadOutcome.notFound)
      "inputs.json" (by decide)).1,
   ((C10_yaml_extension_gate (fun _ => FileReadOutcome.notFound)
      "inputs.json" (by decide)).2 (fun _ => Except.ok cexInputs)
      (fun _ => Except.error "y") (fun _ => Except.error "m")).1 (by decide)⟩

end ProductEye
